import Mathlib

/-!
Shallow embedding of the PyMoe client library.

The repository has two source files:
  * Pymoe/Interface/anime/mal/__init__.py   — class Mal with methods
    search, get, ranking, seasonal (REST client for MyAnimeList).
  * Pymoe/manga/search/anilist/__init__.py  — function manga
    (GraphQL client for AniList).

Network effects are modelled by splitting each operation into the HTTP
request it sends (a pure value built from the arguments) and the pure
function from the upstream response to the returned value.  Python
dictionaries built with data-derived keys are modelled as association
lists with Python dict assignment semantics: assigning to an existing
key replaces the value in place, assigning to a fresh key appends.
Python integers are modelled as Int (arbitrary precision, no overflow).
The injected clock (date.today) is an explicit month argument.
-/

set_option linter.unusedVariables false

namespace PyMoe

/-! ### Python dict as an association list -/

/-- Assignment d[k] = v with Python dict semantics: if the key is
present its value is replaced at its position, otherwise the pair is
appended at the end. -/
def dictSet {K V : Type} [DecidableEq K] : List (K × V) → K → V → List (K × V)
  | [], k, v => [(k, v)]
  | (k', v') :: rest, k, v =>
      if k' = k then (k, v) :: rest else (k', v') :: dictSet rest k v

/-- Lookup d[k]: the value at the first (hence unique) occurrence of
the key, or none when the key is absent. -/
def dictGet {K V : Type} [DecidableEq K] : List (K × V) → K → Option V
  | [], _ => none
  | (k', v') :: rest, k => if k' = k then some v' else dictGet rest k

/-! ### Python truthiness helpers -/

/-- Truthiness of an optional string: Python treats None and the empty
string as falsy.  Used to model the expressions `not season` and
`fields or default`. -/
def falsyStr : Option String → Bool
  | none => true
  | some s => s = ""

/-- Python expression `fields or default` for an optional string
argument: the default is used when fields is None or empty. -/
def pyOrStr (fields : Option String) (default : String) : String :=
  match fields with
  | none => default
  | some s => if s = "" then default else s

/-! ### Data model for the MyAnimeList client -/

/-- One anime record, the value of the node key of a data item in the
upstream payload.  The title is the field the reshaping logic reads;
the rest of the JSON object is kept opaque. -/
structure Node where
  title : String
  rest : String
deriving DecidableEq, Repr

/-- Paging cursor computed by the reshaper: the dictionary stored under
the paging key, with fields previous and next. -/
structure Paging where
  previous : Option Int
  next : Option Int
deriving DecidableEq, Repr

/-- Values of the result dictionary returned by search and seasonal:
either an anime record (under its title) or the paging cursor (under
the reserved key "paging"). -/
inductive MalValue where
  | node (n : Node)
  | paging (p : Paging)
deriving DecidableEq, Repr

/-- Upstream response for search and seasonal, as far as the code reads
it: HTTP status, the list of nodes in jsd data (one per item), and the
key set of the jsd paging object (the code tests membership of "next"
in it). -/
structure MalResponse where
  status_code : Int
  data : List Node
  pagingKeys : List String
deriving DecidableEq, Repr

/-- One item of the ranking payload: the node plus its rank taken from
the ranking sub-object of the item. -/
structure RankItem where
  node : Node
  rank : Int
deriving DecidableEq, Repr

/-- Upstream response for ranking. -/
structure RankResponse where
  status_code : Int
  data : List RankItem
  pagingKeys : List String
deriving DecidableEq, Repr

/-- Result of ranking: the Python dict has exactly the two fixed keys
ranking and paging, modelled as a record. -/
structure RankingDict where
  ranking : List (Int × Node)
  paging : Paging
deriving DecidableEq, Repr

/-- Upstream response for get: HTTP status and the parsed JSON body,
kept opaque. -/
structure GetResponse where
  status_code : Int
  body : String
deriving DecidableEq, Repr

/-- An HTTP GET request as the requests library receives it: URL, query
parameters, headers. -/
structure HttpRequest where
  url : String
  params : List (String × String)
  headers : List (String × String)
deriving DecidableEq, Repr

/-! ### Mal client settings (built in Mal.__init__ from the api key) -/

def apiurl : String := "https://api.myanimelist.net/v2/"

def default_fields : String :=
  "id,title,main_picture,alternative_titles,start_date,nsfw,genres,status,media_type,broadcast"

/-- Field list used by search, ranking and seasonal when the caller
passes no fields. -/
def basic_fields : String :=
  "id,title,main_picture,alternative_titles,start_date"

def header (apikey : String) : List (String × String) :=
  [("Content-Type", "application/json"),
   ("User-Agent", "Pymoe (github.com/ccubed/PyMoe)"),
   ("Accept", "application/json"),
   ("X-MAL-CLIENT-ID", apikey)]

/-! ### Mal.search -/

/-- Mal.search: returns the request sent and, from the response, the
result.  A non-200 status yields None; otherwise a dict keyed by each
node title, plus the paging cursor under the reserved key "paging"
(assigned last, so it overwrites any record titled "paging"). -/
def search (apikey name : String) (limit offset : Int)
    (fields : Option String) (nsfw : Bool) (r : MalResponse) :
    HttpRequest × Option (List (String × MalValue)) :=
  let req : HttpRequest :=
    ⟨apiurl ++ "anime",
     [("q", name),
      ("fields", pyOrStr fields basic_fields),
      ("limit", toString limit),
      ("offset", toString offset),
      ("nsfw", if !nsfw then "false" else "true")],
     header apikey⟩
  let res : Option (List (String × MalValue)) :=
    if r.status_code ≠ 200 then none
    else
      let rdict := r.data.foldl (fun d n => dictSet d n.title (MalValue.node n)) []
      some (dictSet rdict "paging" (MalValue.paging
        ⟨if offset > 0 then some (offset - limit) else none,
         if r.pagingKeys.contains "next" then some (offset + limit) else none⟩))
  (req, res)

/-! ### Mal.get -/

/-- Mal.get: returns the request sent and, from the response, the
parsed body on status 200 and None on any other status. -/
def get (apikey id : String) (fields : Option String) (r : GetResponse) :
    HttpRequest × Option String :=
  ( ⟨apiurl ++ "anime/" ++ id,
     [("fields", pyOrStr fields default_fields),
      ("nsfw", "true")],
     header apikey⟩,
    if r.status_code ≠ 200 then none else some r.body )

/-! ### Mal.ranking -/

/-- Mal.ranking: returns the request sent and, from the response, None
on non-200 status, otherwise a dict with the nodes keyed by rank under
the ranking key and the paging cursor under the paging key. -/
def ranking (apikey rank_type : String) (limit offset : Int)
    (fields : Option String) (nsfw : Bool) (r : RankResponse) :
    HttpRequest × Option RankingDict :=
  let req : HttpRequest :=
    ⟨apiurl ++ "anime/ranking",
     [("ranking_type", rank_type),
      ("limit", toString limit),
      ("offset", toString offset),
      ("fields", pyOrStr fields basic_fields),
      ("nsfw", if !nsfw then "false" else "true")],
     header apikey⟩
  let res : Option RankingDict :=
    if r.status_code ≠ 200 then none
    else
      some ⟨r.data.foldl (fun d item => dictSet d item.rank item.node) [],
            ⟨if offset > 0 then some (offset - limit) else none,
             if r.pagingKeys.contains "next" then some (offset + limit) else none⟩⟩
  (req, res)

/-! ### Mal.seasonal -/

/-- Season derived from the current month, the if chain of seasonal. -/
def currentSeason (month : Int) : String :=
  if month ≤ 3 then "winter"
  else if month ≤ 6 then "spring"
  else if month ≤ 9 then "summer"
  else "fall"

/-- Mal.seasonal: month is the injected current month (date.today).
The Python guard `if not season` takes the derived season when season
is None or the empty string.  The nsfw argument is accepted but never
used: the params dict of seasonal has no nsfw entry.  The response
reshaping is the same as in search. -/
def seasonal (apikey : String) (year : Int) (season : Option String)
    (sort : String) (limit offset : Int) (fields : Option String)
    (nsfw : Bool) (month : Int) (r : MalResponse) :
    HttpRequest × Option (List (String × MalValue)) :=
  let myseason : String :=
    if falsyStr season then currentSeason month else season.getD ""
  let req : HttpRequest :=
    ⟨apiurl ++ "anime/season/" ++ toString year ++ "/" ++ myseason,
     [("sort", sort),
      ("limit", toString limit),
      ("offset", toString offset),
      ("fields", pyOrStr fields basic_fields)],
     header apikey⟩
  let res : Option (List (String × MalValue)) :=
    if r.status_code ≠ 200 then none
    else
      let rdict := r.data.foldl (fun d n => dictSet d n.title (MalValue.node n)) []
      some (dictSet rdict "paging" (MalValue.paging
        ⟨if offset > 0 then some (offset - limit) else none,
         if r.pagingKeys.contains "next" then some (offset + limit) else none⟩))
  (req, res)

/-! ### Extracting the paging cursor from a search or seasonal result -/

/-- The paging cursor stored in a search or seasonal result dict, when
the value under the key "paging" is a cursor. -/
def pagingOf (d : List (String × MalValue)) : Option Paging :=
  match dictGet d "paging" with
  | some (MalValue.paging p) => some p
  | _ => none

/-- The previous offset of the cursor of a search or seasonal result:
outer none when the call failed or the paging key does not hold a
cursor, inner value the previous field. -/
def previousOf (res : Option (List (String × MalValue))) : Option (Option Int) :=
  (res.bind pagingOf).map Paging.previous

/-- The next offset of the cursor of a search or seasonal result. -/
def nextOf (res : Option (List (String × MalValue))) : Option (Option Int) :=
  (res.bind pagingOf).map Paging.next

/-- The previous offset of the cursor of a ranking result. -/
def rankPreviousOf (res : Option RankingDict) : Option (Option Int) :=
  res.map fun d => d.paging.previous

/-- The next offset of the cursor of a ranking result. -/
def rankNextOf (res : Option RankingDict) : Option (Option Int) :=
  res.map fun d => d.paging.next

/-- The last record of a data list carrying a given title: with Python
dict semantics a later assignment to the same title wins. -/
def lastWithTitle : List Node → String → Option Node
  | [], _ => none
  | n :: l, t =>
      match lastWithTitle l t with
      | some m => some m
      | none => if n.title = t then some n else none

/-! ### AniList manga search (Pymoe/manga/search/anilist/__init__.py) -/

namespace Anilist

/-- Headers of the module-level settings dict. -/
def settings_header : List (String × String) :=
  [("Content-Type", "application/json"),
   ("User-Agent", "Pymoe (github.com/ccubed/PyMoe)"),
   ("Accept", "application/json")]

/-- Endpoint URL of the module-level settings dict. -/
def settings_apiurl : String := "https://graphql.anilist.co"

/-- The GraphQL query document sent by manga, verbatim. -/
def query_string : String :=
  "        query( $query: String, $page: Int, $perPage: Int )\x7b\n" ++
  "            Page ( page: $page, perPage: $perPage ) \x7b\n" ++
  "                pageInfo \x7b\n" ++
  "                    currentPage\n" ++
  "                    hasNextPage\n" ++
  "                \x7d\n" ++
  "                media ( search: $query, type: MANGA )\x7b\n" ++
  "                    id\n" ++
  "                    idMal\n" ++
  "                    title \x7b\n" ++
  "                        romaji\n" ++
  "                        english\n" ++
  "                    \x7d\n" ++
  "                    coverImage \x7b\n" ++
  "                        extralarge\n" ++
  "                        large\n" ++
  "                        medium\n" ++
  "                        color\n" ++
  "                    \x7d\n" ++
  "                    status\n" ++
  "                    description\n" ++
  "                    startDate \x7b\n" ++
  "                        year\n" ++
  "                        month\n" ++
  "                        day\n" ++
  "                    \x7d\n" ++
  "                    endDate \x7b\n" ++
  "                        year\n" ++
  "                        month\n" ++
  "                        day\n" ++
  "                    \x7d\n" ++
  "                    averageScore\n" ++
  "                    popularity\n" ++
  "                    chapters\n" ++
  "                    volumes\n" ++
  "                    genres\n" ++
  "                    hashtag\n" ++
  "                    isAdult\n" ++
  "                    averageScore\n" ++
  "                    synonyms\n" ++
  "                    siteUrl\n" ++
  "                \x7d\n" ++
  "            \x7d\n" ++
  "        \x7d    \n    "

/-- One manga record of the media list, kept opaque. -/
abbrev Media := String

/-- The variables object of the GraphQL request body. -/
structure GraphVariables where
  query : String
  page : Int
  perPage : Int
deriving DecidableEq, Repr

/-- The json_params request body built by manga: the query document
under the query key and the GraphQL variables under the variables key
(vars here, since that field name is reserved in Lean). -/
structure JsonParams where
  query : String
  vars : GraphVariables
deriving DecidableEq, Repr

/-- The pageInfo object of a well-formed payload. -/
structure PageInfo where
  currentPage : Int
  hasNextPage : Bool
deriving DecidableEq, Repr

/-- The Page object of a well-formed payload: pageInfo plus the media
list. -/
structure PageObj where
  pageInfo : PageInfo
  media : List Media
deriving DecidableEq, Repr

/-- The parsed JSON body.  errors records whether the key errors is
present; dataPage is the object reached by jsd data Page when those
keys are present, and none when either is missing (Python would raise
KeyError there). -/
structure Jsd where
  errors : Bool
  dataPage : Option PageObj
deriving DecidableEq, Repr

/-- Upstream response to the POST: raw text, status, and the result of
parsing the text as JSON (none models a ValueError from ujson). -/
structure AnilistResponse where
  text : String
  status_code : Int
  json : Option Jsd
deriving DecidableEq, Repr

/-- Modelled from the spec: the error classes serializationFailed and
serverError live in pymoe.errors, which is not under src.  Per the
spec each carries the raw body and the status code.  keyError models
Python raising KeyError on a missing dictionary key. -/
inductive PyError where
  | serializationFailed (body : String) (status : Int)
  | serverError (body : String) (status : Int)
  | keyError
deriving DecidableEq, Repr

/-- Modelled from the spec: the anilistWrapper class lives in
pymoe.helpers, which is not under src.  Per the spec the Continuation
Wrapper owns the media results, the original query payload, the
headers, and the endpoint URL; the fields match the four arguments of
the constructor call in manga. -/
structure AnilistWrapper where
  results : List Media
  jsonParams : JsonParams
  header : List (String × String)
  apiurl : String
deriving DecidableEq, Repr

/-- What manga returns on success: the plain media list on a terminal
page, a continuation wrapper when hasNextPage is true. -/
inductive MangaResult where
  | mediaList (l : List Media)
  | continuation (w : AnilistWrapper)
deriving DecidableEq, Repr

/-- The manga function, from the response of its single POST to its
outcome.  Parse failure raises serializationFailed with the raw text
and status; a payload with an errors key raises serverError; otherwise
the media list is returned, wrapped in an anilistWrapper built from
the media, the json_params body, the headers and the endpoint exactly
when pageInfo hasNextPage is true. -/
def manga (term : String) (page perPage : Int) (r : AnilistResponse) :
    Except PyError MangaResult :=
  let json_params : JsonParams := ⟨query_string, ⟨term, page, perPage⟩⟩
  match r.json with
  | none => Except.error (PyError.serializationFailed r.text r.status_code)
  | some jsd =>
      if jsd.errors then
        Except.error (PyError.serverError r.text r.status_code)
      else
        match jsd.dataPage with
        | none => Except.error PyError.keyError
        | some pageObj =>
            if pageObj.pageInfo.hasNextPage then
              Except.ok (MangaResult.continuation
                ⟨pageObj.media, json_params, settings_header, settings_apiurl⟩)
            else
              Except.ok (MangaResult.mediaList pageObj.media)

end Anilist

/-! ## Helper lemmas -/

theorem dictGet_dictSet {K V : Type} [DecidableEq K]
    (d : List (K × V)) (k t : K) (v : V) :
    dictGet (dictSet d k v) t = if k = t then some v else dictGet d t := by
  induction d with
  | nil => simp [dictSet, dictGet]
  | cons hd tl ih =>
      obtain ⟨k', v'⟩ := hd
      simp only [dictSet]
      by_cases h : k' = k
      · subst h
        simp only [if_pos rfl, dictGet]
        by_cases h2 : k' = t <;> simp [h2]
      · simp only [if_neg h, dictGet, ih]
        by_cases h2 : k' = t
        · subst h2
          have hkt : ¬ k = k' := fun he => h he.symm
          simp [hkt]
        · simp [h2]

theorem dictGet_dictSet_self {K V : Type} [DecidableEq K]
    (d : List (K × V)) (k : K) (v : V) :
    dictGet (dictSet d k v) k = some v := by
  simp [dictGet_dictSet]

theorem dictGet_dictSet_ne {K V : Type} [DecidableEq K]
    (d : List (K × V)) (k t : K) (v : V) (h : k ≠ t) :
    dictGet (dictSet d k v) t = dictGet d t := by
  simp [dictGet_dictSet, h]

/-- Looking a title up in the dict built by the title-keyed insertion
loop of search and seasonal: the last record with that title wins, and
a title absent from the batch falls through to the initial dict. -/
theorem dictGet_foldl_nodes (l : List Node) (d : List (String × MalValue)) (t : String) :
    dictGet (l.foldl (fun d n => dictSet d n.title (MalValue.node n)) d) t
      = match lastWithTitle l t with
        | some n => some (MalValue.node n)
        | none => dictGet d t := by
  induction l generalizing d with
  | nil => simp [lastWithTitle]
  | cons n l ih =>
      simp only [List.foldl_cons, ih, lastWithTitle]
      cases hlast : lastWithTitle l t with
      | some m => simp
      | none =>
          simp only [dictGet_dictSet]
          by_cases h : n.title = t <;> simp [h]

theorem search_snd_eq (apikey name : String) (limit offset : Int)
    (fields : Option String) (nsfw : Bool) (r : MalResponse)
    (h : r.status_code = 200) :
    (search apikey name limit offset fields nsfw r).2
      = some (dictSet (r.data.foldl (fun d n => dictSet d n.title (MalValue.node n)) [])
          "paging" (MalValue.paging
            ⟨if offset > 0 then some (offset - limit) else none,
             if r.pagingKeys.contains "next" then some (offset + limit) else none⟩)) := by
  simp [search, h]

theorem search_paging (apikey name : String) (limit offset : Int)
    (fields : Option String) (nsfw : Bool) (r : MalResponse)
    (h : r.status_code = 200) :
    (search apikey name limit offset fields nsfw r).2.bind pagingOf
      = some ⟨if offset > 0 then some (offset - limit) else none,
              if r.pagingKeys.contains "next" then some (offset + limit) else none⟩ := by
  rw [search_snd_eq apikey name limit offset fields nsfw r h]
  simp [pagingOf, dictGet_dictSet_self]

theorem seasonal_snd_eq (apikey : String) (year : Int) (season : Option String)
    (sort : String) (limit offset : Int) (fields : Option String)
    (nsfw : Bool) (month : Int) (r : MalResponse)
    (h : r.status_code = 200) :
    (seasonal apikey year season sort limit offset fields nsfw month r).2
      = some (dictSet (r.data.foldl (fun d n => dictSet d n.title (MalValue.node n)) [])
          "paging" (MalValue.paging
            ⟨if offset > 0 then some (offset - limit) else none,
             if r.pagingKeys.contains "next" then some (offset + limit) else none⟩)) := by
  simp [seasonal, h]

theorem seasonal_paging (apikey : String) (year : Int) (season : Option String)
    (sort : String) (limit offset : Int) (fields : Option String)
    (nsfw : Bool) (month : Int) (r : MalResponse)
    (h : r.status_code = 200) :
    (seasonal apikey year season sort limit offset fields nsfw month r).2.bind pagingOf
      = some ⟨if offset > 0 then some (offset - limit) else none,
              if r.pagingKeys.contains "next" then some (offset + limit) else none⟩ := by
  rw [seasonal_snd_eq apikey year season sort limit offset fields nsfw month r h]
  simp [pagingOf, dictGet_dictSet_self]

theorem ranking_snd_eq (apikey rank_type : String) (limit offset : Int)
    (fields : Option String) (nsfw : Bool) (r : RankResponse)
    (h : r.status_code = 200) :
    (ranking apikey rank_type limit offset fields nsfw r).2
      = some ⟨r.data.foldl (fun d item => dictSet d item.rank item.node) [],
              ⟨if offset > 0 then some (offset - limit) else none,
               if r.pagingKeys.contains "next" then some (offset + limit) else none⟩⟩ := by
  simp [ranking, h]

/-! ## Claim theorems -/

/-- C1: for every successful call to search, ranking, or seasonal with
arguments offset and limit, the paging cursor of the result has its
previous field equal to offset - limit whenever offset > 0, and equal
to None exactly when offset <= 0. -/
theorem mal_paging_previous
    (apikey name rank_type sort : String) (year month limit offset : Int)
    (season fields : Option String) (nsfw : Bool)
    (rs : MalResponse) (rr : RankResponse) (rp : MalResponse)
    (hs : rs.status_code = 200) (hr : rr.status_code = 200)
    (hp : rp.status_code = 200) :
    ((offset > 0 →
        previousOf (search apikey name limit offset fields nsfw rs).2
          = some (some (offset - limit))) ∧
     (previousOf (search apikey name limit offset fields nsfw rs).2 = some none
        ↔ offset ≤ 0)) ∧
    ((offset > 0 →
        rankPreviousOf (ranking apikey rank_type limit offset fields nsfw rr).2
          = some (some (offset - limit))) ∧
     (rankPreviousOf (ranking apikey rank_type limit offset fields nsfw rr).2 = some none
        ↔ offset ≤ 0)) ∧
    ((offset > 0 →
        previousOf (seasonal apikey year season sort limit offset fields nsfw month rp).2
          = some (some (offset - limit))) ∧
     (previousOf (seasonal apikey year season sort limit offset fields nsfw month rp).2 = some none
        ↔ offset ≤ 0)) := by
  have hs' := search_paging apikey name limit offset fields nsfw rs hs
  have hr' := ranking_snd_eq apikey rank_type limit offset fields nsfw rr hr
  have hp' := seasonal_paging apikey year season sort limit offset fields nsfw month rp hp
  refine ⟨⟨fun h => ?_, ?_⟩, ⟨fun h => ?_, ?_⟩, ⟨fun h => ?_, ?_⟩⟩
  · simp [previousOf, hs', h]
  · by_cases h : offset > 0 <;> simp [previousOf, hs', h] <;> omega
  · simp [rankPreviousOf, hr', h]
  · by_cases h : offset > 0 <;> simp [rankPreviousOf, hr', h] <;> omega
  · simp [previousOf, hp', h]
  · by_cases h : offset > 0 <;> simp [previousOf, hp', h] <;> omega

/-- Witness for C1 at a concrete input: offset 5, limit 2, all three
responses successful and empty, previous offset 3. -/
theorem mal_paging_previous_witness :
    previousOf (search "k" "n" 2 5 none false ⟨200, [], []⟩).2 = some (some (5 - 2)) :=
  (mal_paging_previous "k" "n" "all" "anime_score" 1 2 2 5 none none false
    ⟨200, [], []⟩ ⟨200, [], []⟩ ⟨200, [], []⟩ rfl rfl rfl).1.1 (by decide)

/-- C2: for every successful call to search, ranking, or seasonal, the
next field of the paging cursor is None exactly when the upstream
response reports no further page (no next key in its paging object),
and equals offset + limit exactly when the upstream response reports a
further page. -/
theorem mal_paging_next
    (apikey name rank_type sort : String) (year month limit offset : Int)
    (season fields : Option String) (nsfw : Bool)
    (rs : MalResponse) (rr : RankResponse) (rp : MalResponse)
    (hs : rs.status_code = 200) (hr : rr.status_code = 200)
    (hp : rp.status_code = 200) :
    ((nextOf (search apikey name limit offset fields nsfw rs).2 = some none
        ↔ rs.pagingKeys.contains "next" = false) ∧
     (nextOf (search apikey name limit offset fields nsfw rs).2 = some (some (offset + limit))
        ↔ rs.pagingKeys.contains "next" = true)) ∧
    ((rankNextOf (ranking apikey rank_type limit offset fields nsfw rr).2 = some none
        ↔ rr.pagingKeys.contains "next" = false) ∧
     (rankNextOf (ranking apikey rank_type limit offset fields nsfw rr).2 = some (some (offset + limit))
        ↔ rr.pagingKeys.contains "next" = true)) ∧
    ((nextOf (seasonal apikey year season sort limit offset fields nsfw month rp).2 = some none
        ↔ rp.pagingKeys.contains "next" = false) ∧
     (nextOf (seasonal apikey year season sort limit offset fields nsfw month rp).2 = some (some (offset + limit))
        ↔ rp.pagingKeys.contains "next" = true)) := by
  have hs' := search_paging apikey name limit offset fields nsfw rs hs
  have hr' := ranking_snd_eq apikey rank_type limit offset fields nsfw rr hr
  have hp' := seasonal_paging apikey year season sort limit offset fields nsfw month rp hp
  refine ⟨⟨?_, ?_⟩, ⟨?_, ?_⟩, ⟨?_, ?_⟩⟩
  · by_cases h : rs.pagingKeys.contains "next" <;> simp [nextOf, hs', h]
  · by_cases h : rs.pagingKeys.contains "next" <;> simp [nextOf, hs', h]
  · by_cases h : rr.pagingKeys.contains "next" <;> simp [rankNextOf, hr', h]
  · by_cases h : rr.pagingKeys.contains "next" <;> simp [rankNextOf, hr', h]
  · by_cases h : rp.pagingKeys.contains "next" <;> simp [nextOf, hp', h]
  · by_cases h : rp.pagingKeys.contains "next" <;> simp [nextOf, hp', h]

/-- Witness for C2 at a concrete input: a search response whose paging
object has a next key gives next offset 5 + 2. -/
theorem mal_paging_next_witness :
    nextOf (search "k" "n" 2 5 none false ⟨200, [], ["next"]⟩).2 = some (some (5 + 2)) :=
  ((mal_paging_next "k" "n" "all" "anime_score" 1 2 2 5 none none false
    ⟨200, [], ["next"]⟩ ⟨200, [], []⟩ ⟨200, [], []⟩ rfl rfl rfl).1.2).mpr (by decide)

/-- C3 counterexample: at offset 1, limit 10, a successful search
response yields previous offset -9, so the paging cursor does contain
a negative offset even though offset > 0 and limit > 0. -/
theorem mal_previous_negative :
    previousOf (search "k" "n" 10 1 none false ⟨200, [], []⟩).2 = some (some (-9)) ∧
    (-9 : Int) < 0 := by
  exact ⟨rfl, by decide⟩

/-- C3 amended: for every successful call to search, ranking, or
seasonal with offset > 0 and limit > 0, the previous field of the
paging cursor equals offset - limit, which is non-negative precisely
when limit <= offset; when 0 < offset < limit the cursor contains the
negative offset offset - limit. -/
theorem mal_previous_sign
    (apikey name rank_type sort : String) (year month limit offset : Int)
    (season fields : Option String) (nsfw : Bool)
    (rs : MalResponse) (rr : RankResponse) (rp : MalResponse)
    (hs : rs.status_code = 200) (hr : rr.status_code = 200)
    (hp : rp.status_code = 200) (hoff : offset > 0) (hlim : limit > 0) :
    previousOf (search apikey name limit offset fields nsfw rs).2
      = some (some (offset - limit)) ∧
    rankPreviousOf (ranking apikey rank_type limit offset fields nsfw rr).2
      = some (some (offset - limit)) ∧
    previousOf (seasonal apikey year season sort limit offset fields nsfw month rp).2
      = some (some (offset - limit)) ∧
    (0 ≤ offset - limit ↔ limit ≤ offset) := by
  have hs' := search_paging apikey name limit offset fields nsfw rs hs
  have hr' := ranking_snd_eq apikey rank_type limit offset fields nsfw rr hr
  have hp' := seasonal_paging apikey year season sort limit offset fields nsfw month rp hp
  refine ⟨?_, ?_, ?_, by omega⟩
  · simp [previousOf, hs', hoff]
  · simp [rankPreviousOf, hr', hoff]
  · simp [previousOf, hp', hoff]

/-- Witness for the amended C3 at offset 1, limit 10: previous is the
negative offset -9. -/
theorem mal_previous_sign_witness :
    previousOf (search "k" "n" 10 1 none false ⟨200, [], ["next"]⟩).2
      = some (some (1 - 10)) :=
  (mal_previous_sign "k" "n" "all" "anime_score" 1 2 10 1 none none false
    ⟨200, [], ["next"]⟩ ⟨200, [], []⟩ ⟨200, [], []⟩ rfl rfl rfl
    (by decide) (by decide)).1

/-- C4 counterexample: a get call whose response has status 404
returns the ordinary null result None; no NotFound error is signalled
anywhere in the code path. -/
theorem get_notfound_silent_null :
    (get "k" "5" none ⟨404, "notfound"⟩).2 = none := rfl

/-- C4 amended: for every call to get, a response with any status
other than 200 (404 included) makes the call return the ordinary null
result None rather than failing with a NotFound or RequestFailed
error, and a 200 response returns the parsed body. -/
theorem get_nonsuccess_returns_none (apikey id : String)
    (fields : Option String) (r : GetResponse) :
    (r.status_code ≠ 200 → (get apikey id fields r).2 = none) ∧
    (r.status_code = 200 → (get apikey id fields r).2 = some r.body) := by
  constructor <;> intro h <;> simp [get, h]

/-- Witness for the amended C4 at status 500: the result is None. -/
theorem get_nonsuccess_returns_none_witness :
    (get "k" "7" none ⟨500, "oops"⟩).2 = none :=
  (get_nonsuccess_returns_none "k" "7" none ⟨500, "oops"⟩).1 (by decide)

/-- C5: for every call to manga whose HTTP response body is not valid
JSON (the parse yields no document), the call raises
serializationFailed carrying the raw body and status code, and never
returns a result. -/
theorem manga_serialization_failed (term : String) (page perPage : Int)
    (r : Anilist.AnilistResponse) (h : r.json = none) :
    Anilist.manga term page perPage r
      = Except.error (Anilist.PyError.serializationFailed r.text r.status_code) := by
  simp [Anilist.manga, h]

/-- Witness for C5: a response with unparsable body "oops" and status
500 raises serializationFailed "oops" 500. -/
theorem manga_serialization_failed_witness :
    Anilist.manga "naruto" 1 3 ⟨"oops", 500, none⟩
      = Except.error (Anilist.PyError.serializationFailed "oops" 500) :=
  manga_serialization_failed "naruto" 1 3 ⟨"oops", 500, none⟩ rfl

/-- C6: for every call to manga whose HTTP response body parses as
JSON containing an errors field, the call raises serverError carrying
the raw body and status code, and is never treated as success. -/
theorem manga_server_error (term : String) (page perPage : Int)
    (r : Anilist.AnilistResponse) (jsd : Anilist.Jsd)
    (h : r.json = some jsd) (he : jsd.errors = true) :
    Anilist.manga term page perPage r
      = Except.error (Anilist.PyError.serverError r.text r.status_code) := by
  simp [Anilist.manga, h, he]

/-- Witness for C6: a well-formed body with an errors key and status
200 raises serverError. -/
theorem manga_server_error_witness :
    Anilist.manga "naruto" 1 3 ⟨"body", 200, some ⟨true, none⟩⟩
      = Except.error (Anilist.PyError.serverError "body" 200) :=
  manga_server_error "naruto" 1 3 ⟨"body", 200, some ⟨true, none⟩⟩ ⟨true, none⟩ rfl rfl

/-- C7: for every call to manga with a well-formed, error-free
response, the result is the plain media list exactly when hasNextPage
is false, and a continuation wrapper holding the media list, the
original query payload, the headers, and the endpoint URL exactly when
hasNextPage is true. -/
theorem manga_continuation (term : String) (page perPage : Int)
    (r : Anilist.AnilistResponse) (jsd : Anilist.Jsd) (pageObj : Anilist.PageObj)
    (h : r.json = some jsd) (he : jsd.errors = false)
    (hd : jsd.dataPage = some pageObj) :
    (Anilist.manga term page perPage r
        = Except.ok (Anilist.MangaResult.continuation
            ⟨pageObj.media, ⟨Anilist.query_string, ⟨term, page, perPage⟩⟩,
             Anilist.settings_header, Anilist.settings_apiurl⟩)
      ↔ pageObj.pageInfo.hasNextPage = true) ∧
    (Anilist.manga term page perPage r
        = Except.ok (Anilist.MangaResult.mediaList pageObj.media)
      ↔ pageObj.pageInfo.hasNextPage = false) := by
  cases hnp : pageObj.pageInfo.hasNextPage <;>
    simp [Anilist.manga, h, he, hd, hnp]

/-- Witness for C7: a response with hasNextPage true yields the
continuation wrapper built from the media list, the query payload, the
headers and the endpoint. -/
theorem manga_continuation_witness :
    Anilist.manga "naruto" 1 3 ⟨"body", 200, some ⟨false, some ⟨⟨1, true⟩, ["m1"]⟩⟩⟩
      = Except.ok (Anilist.MangaResult.continuation
          ⟨["m1"], ⟨Anilist.query_string, ⟨"naruto", 1, 3⟩⟩,
           Anilist.settings_header, Anilist.settings_apiurl⟩) :=
  (manga_continuation "naruto" 1 3 ⟨"body", 200, some ⟨false, some ⟨⟨1, true⟩, ["m1"]⟩⟩⟩
    ⟨false, some ⟨⟨1, true⟩, ["m1"]⟩⟩ ⟨⟨1, true⟩, ["m1"]⟩ rfl rfl rfl).1.mpr rfl

/-- C8 counterexample: seasonal called with the empty string as the
season argument (a given season) does not use it unchanged in the URL;
the guard treats the empty string like None and derives the season
from the month instead. -/
theorem seasonal_empty_season :
    (seasonal "k" 1 (some "") "anime_score" 10 0 none false 5 ⟨200, [], []⟩).1.url
      = "https://api.myanimelist.net/v2/anime/season/1/spring" ∧
    (seasonal "k" 1 (some "") "anime_score" 10 0 none false 5 ⟨200, [], []⟩).1.url
      ≠ "https://api.myanimelist.net/v2/anime/season/1/" := by
  exact ⟨rfl, by decide⟩

/-- C8 amended: for every call to seasonal with season unset or equal
to the empty string, the season in the request URL is derived from the
current month by fixed quarter boundaries, months 1-3 winter, 4-6
spring, 7-9 summer, 10-12 fall, boundary months included; when season
is a non-empty string it is used unchanged. -/
theorem seasonal_season_derivation (apikey : String) (year : Int)
    (season : Option String) (sort : String) (limit offset : Int)
    (fields : Option String) (nsfw : Bool) (month : Int) (r : MalResponse) :
    (falsyStr season = true →
      ((1 ≤ month → month ≤ 3 →
         (seasonal apikey year season sort limit offset fields nsfw month r).1.url
           = apiurl ++ "anime/season/" ++ toString year ++ "/winter") ∧
       (4 ≤ month → month ≤ 6 →
         (seasonal apikey year season sort limit offset fields nsfw month r).1.url
           = apiurl ++ "anime/season/" ++ toString year ++ "/spring") ∧
       (7 ≤ month → month ≤ 9 →
         (seasonal apikey year season sort limit offset fields nsfw month r).1.url
           = apiurl ++ "anime/season/" ++ toString year ++ "/summer") ∧
       (10 ≤ month → month ≤ 12 →
         (seasonal apikey year season sort limit offset fields nsfw month r).1.url
           = apiurl ++ "anime/season/" ++ toString year ++ "/fall"))) ∧
    (∀ s, season = some s → s ≠ "" →
       (seasonal apikey year season sort limit offset fields nsfw month r).1.url
         = apiurl ++ "anime/season/" ++ toString year ++ "/" ++ s) := by
  refine ⟨fun hf => ⟨fun h1 h3 => ?_, fun h4 h6 => ?_, fun h7 h9 => ?_,
    fun h10 h12 => ?_⟩, fun s hs hne => ?_⟩
  · simp [seasonal, hf, currentSeason, h3]
    rw [String.append_assoc]
    rfl
  · have k3 : ¬ month ≤ 3 := by omega
    simp [seasonal, hf, currentSeason, k3, h6]
    rw [String.append_assoc]
    rfl
  · have k3 : ¬ month ≤ 3 := by omega
    have k6 : ¬ month ≤ 6 := by omega
    simp [seasonal, hf, currentSeason, k3, k6, h9]
    rw [String.append_assoc]
    rfl
  · have k3 : ¬ month ≤ 3 := by omega
    have k6 : ¬ month ≤ 6 := by omega
    have k9 : ¬ month ≤ 9 := by omega
    simp [seasonal, hf, currentSeason, k3, k6, k9]
    rw [String.append_assoc]
    rfl
  · have hf2 : falsyStr (some s) = false := by simp [falsyStr, hne]
    simp [seasonal, hs, hf2]

/-- Witness for the amended C8: month 11 with season unset gives the
fall URL. -/
theorem seasonal_season_derivation_witness :
    (seasonal "k" 1 none "anime_score" 10 0 none false 11 ⟨200, [], []⟩).1.url
      = apiurl ++ "anime/season/" ++ toString (1 : Int) ++ "/fall" :=
  (((seasonal_season_derivation "k" 1 none "anime_score" 10 0 none false 11
    ⟨200, [], []⟩).1 rfl).2.2.2) (by decide) (by decide)

/-- C9 counterexample: a successful search whose payload holds exactly
one record, titled "paging", returns a dict whose only entry is the
paging cursor; the record was overwritten by the cursor and appears
nowhere in the result. -/
theorem search_paging_collision :
    (search "k" "n" 10 0 none false ⟨200, [⟨"paging", "x"⟩], []⟩).2
      = some [("paging", MalValue.paging ⟨none, none⟩)] ∧
    ¬ ∃ t, dictGet ((search "k" "n" 10 0 none false ⟨200, [⟨"paging", "x"⟩], []⟩).2.getD []) t
        = some (MalValue.node ⟨"paging", "x"⟩) := by
  refine ⟨rfl, ?_⟩
  rintro ⟨t, ht⟩
  have e : (search "k" "n" 10 0 none false ⟨200, [⟨"paging", "x"⟩], []⟩).2.getD []
      = [("paging", MalValue.paging ⟨none, none⟩)] := rfl
  rw [e] at ht
  by_cases h : "paging" = t <;> simp [dictGet, h] at ht

/-- C9 amended: for every successful call to search or seasonal, the
reserved key "paging" of the result holds the paging cursor, and every
other key t holds the last payload record titled t; in particular a
record titled "paging" is overwritten by the cursor and lost, and of
several records sharing a title only the last appears. -/
theorem mal_title_keyed_result
    (apikey name sort : String) (year month limit offset : Int)
    (season fields : Option String) (nsfw : Bool)
    (rs rp : MalResponse)
    (hs : rs.status_code = 200) (hp : rp.status_code = 200) :
    ((∃ p, dictGet ((search apikey name limit offset fields nsfw rs).2.getD []) "paging"
        = some (MalValue.paging p)) ∧
     ∀ t, t ≠ "paging" →
       dictGet ((search apikey name limit offset fields nsfw rs).2.getD []) t
         = (lastWithTitle rs.data t).map MalValue.node) ∧
    ((∃ p, dictGet ((seasonal apikey year season sort limit offset fields nsfw month rp).2.getD []) "paging"
        = some (MalValue.paging p)) ∧
     ∀ t, t ≠ "paging" →
       dictGet ((seasonal apikey year season sort limit offset fields nsfw month rp).2.getD []) t
         = (lastWithTitle rp.data t).map MalValue.node) := by
  have hs' := search_snd_eq apikey name limit offset fields nsfw rs hs
  have hp' := seasonal_snd_eq apikey year season sort limit offset fields nsfw month rp hp
  simp only [hs', hp', Option.getD_some]
  refine ⟨⟨⟨_, dictGet_dictSet_self _ _ _⟩, fun t ht => ?_⟩,
          ⟨⟨_, dictGet_dictSet_self _ _ _⟩, fun t ht => ?_⟩⟩
  · rw [dictGet_dictSet_ne _ _ _ _ (Ne.symm ht), dictGet_foldl_nodes]
    cases lastWithTitle rs.data t <;> simp [dictGet]
  · rw [dictGet_dictSet_ne _ _ _ _ (Ne.symm ht), dictGet_foldl_nodes]
    cases lastWithTitle rp.data t <;> simp [dictGet]

/-- Witness for the amended C9: a payload with one record titled "A"
gives a result mapping "A" to that record. -/
theorem mal_title_keyed_result_witness :
    dictGet ((search "k" "n" 10 0 none false ⟨200, [⟨"A", "x"⟩], []⟩).2.getD []) "A"
      = (lastWithTitle [⟨"A", "x"⟩] "A").map MalValue.node :=
  ((mal_title_keyed_result "k" "n" "anime_score" 1 2 10 0 none none false
      ⟨200, [⟨"A", "x"⟩], []⟩ ⟨200, [], []⟩ rfl rfl).1.2) "A" (by decide)

/-- C10: two seasonal calls that differ only in the nsfw argument are
indistinguishable: the whole outcome, request and result, is equal,
and nsfw is not among the request parameter keys. -/
theorem seasonal_nsfw_independent (apikey sort : String)
    (year month limit offset : Int) (season fields : Option String)
    (nsfw nsfw2 : Bool) (r : MalResponse) :
    seasonal apikey year season sort limit offset fields nsfw month r
      = seasonal apikey year season sort limit offset fields nsfw2 month r ∧
    ((seasonal apikey year season sort limit offset fields nsfw month r).1.params.map
        Prod.fst).contains "nsfw" = false := by
  exact ⟨rfl, rfl⟩

end PyMoe
